import Mathlib

/-!
Shallow embedding of the Cerber repository's validation logic.

Sources embedded here:
* `cerber-connections-check.sh` — connection-contract validation: per-contract
  findings, the connection map used for the circular-dependency check, and the
  summary exit code.
* `cerber-add-module.sh` — module registration (directory creation guarded by
  an already-exists check).
* `team/lib/module-system.ts` — the TypeScript module-system API.
* `solo/lib/feature-flags.ts` — `isFeatureEnabled`.
* A pattern scanner with exception globs (declared by `BACKEND_SCHEMA` /
  `CERBER.md`; the scanner itself is modelled from the spec).
-/

set_option maxRecDepth 4000

/-- Severity of a finding, as printed by the scripts (red errors counted in
`ERRORS`, yellow warnings counted in `WARNINGS`). -/
inductive Severity where
  | error
  | warning
  deriving DecidableEq, Repr

/-- The kinds of findings `cerber-connections-check.sh` can print for one
contract document, in the order its branches occur. -/
inductive FindingKind where
  | invalidJson
  | missingFromTo
  | danglingModule (name : String)
  | missingInterface
  | missingVersion
  | missingBreakingChanges
  deriving DecidableEq, Repr

/-- One finding of the connections check: a kind plus the severity counter it
increments. -/
structure Finding where
  kind : FindingKind
  severity : Severity
  deriving DecidableEq, Repr

/-- Abstraction of one connection contract file, holding exactly the facts the
script extracts with `python3 -m json.tool` / `grep` / `sed`:
* `validJson` — whether the JSON-syntax check passes;
* `fromField` / `toField` — the first `"from"`/`"to"` string value; `none`
  models both an absent field and an empty value (the script tests `-z`);
* `hasInterface` / `hasVersion` / `hasBreakingChanges` — whether `grep -q`
  finds the `"interface"` / `"version"` / `"breaking_changes"` keys. -/
structure ConnDoc where
  validJson : Bool
  fromField : Option String
  toField : Option String
  hasInterface : Bool
  hasVersion : Bool
  hasBreakingChanges : Bool
  deriving DecidableEq, Repr

/-- The findings the script prints for one contract, mirroring its control
flow: invalid JSON ⇒ one error and `continue`; missing `from`/`to` ⇒ one error
and `continue`; otherwise one error per endpoint whose module directory does
not exist, then one warning per missing `interface` / `version` /
`breaking_changes` key. `registered` is the set of directories under
`.cerber/modules`. -/
def docFindings (registered : List String) (d : ConnDoc) : List Finding :=
  if !d.validJson then [⟨FindingKind.invalidJson, Severity.error⟩]
  else
    match d.fromField, d.toField with
    | some f, some t =>
        (if f ∈ registered then [] else [⟨FindingKind.danglingModule f, Severity.error⟩]) ++
        (if t ∈ registered then [] else [⟨FindingKind.danglingModule t, Severity.error⟩]) ++
        (if d.hasInterface then [] else [⟨FindingKind.missingInterface, Severity.warning⟩]) ++
        (if d.hasVersion then [] else [⟨FindingKind.missingVersion, Severity.warning⟩]) ++
        (if d.hasBreakingChanges then [] else [⟨FindingKind.missingBreakingChanges, Severity.warning⟩])
    | _, _ => [⟨FindingKind.missingFromTo, Severity.error⟩]

/-- The edge the script stores in the `connections` associative array for one
contract: `connections["FROM->TO"]=1` runs right after the missing-field check
and before the module-existence check, so the edge does not depend on which
modules are registered. -/
def docEdge (d : ConnDoc) : Option (String × String) :=
  if !d.validJson then none
  else
    match d.fromField, d.toField with
    | some f, some t => some (f, t)
    | _, _ => none

/-- Insert a key into the `connections` associative array: assigning an
already-present key changes nothing. -/
def insertEdge (edges : List (String × String)) (e : String × String) :
    List (String × String) :=
  if e ∈ edges then edges else edges ++ [e]

/-- The loop state of the connections check: findings printed so far, the
`CHECKED` counter, and the `connections` key set. -/
structure RunState where
  findings : List Finding
  checked : Nat
  edges : List (String × String)
  deriving DecidableEq, Repr

/-- One iteration of the per-contract loop. -/
def stepDoc (registered : List String) (s : RunState) (d : ConnDoc) : RunState :=
  { findings := s.findings ++ docFindings registered d
    checked := s.checked + 1
    edges :=
      match docEdge d with
      | some e => insertEdge s.edges e
      | none => s.edges }

/-- The whole per-contract loop over the given contract documents. -/
def runDocs (registered : List String) (docs : List ConnDoc) : RunState :=
  docs.foldl (stepDoc registered) ⟨[], 0, []⟩

/-- `FROM=$(echo "$key" | cut -d'-' -f1)`: the part of the key `"from->to"`
before the first `-`. Since the separator `->` itself contains a `-`, this is
the part of the `from` name before its first hyphen (the whole name when it
has none). -/
def truncFrom (name : String) : String :=
  String.mk (name.data.takeWhile (fun c => !(c == '-')))

/-- The circular-dependency loop: for every key `from->to` of the
`connections` array the script recomputes `FROM` with `cut -d'-' -f1` and `TO`
with `cut -d'>' -f2`, then reports `FROM ↔ TO` as a potential circular
dependency (one warning) whenever the key `TO->FROM` is present. Module names
contain no `>`, so `TO` is always the full `to` name while `FROM` is the
truncated `from` name. -/
def cycleReports (edges : List (String × String)) : List (String × String) :=
  (edges.filter (fun e => decide ((e.2, truncFrom e.1) ∈ edges))).map
    (fun e => (truncFrom e.1, e.2))

/-- Count the findings of a given severity. -/
def countSev (l : List Finding) (s : Severity) : Nat :=
  (l.filter (fun fi => decide (fi.severity = s))).length

/-- The final `ERRORS` counter of a run. -/
def runErrors (registered : List String) (docs : List ConnDoc) : Nat :=
  countSev (runDocs registered docs).findings Severity.error

/-- The final `WARNINGS` counter of a run: per-contract warnings plus one
warning per reported potential circular dependency. -/
def runWarnings (registered : List String) (docs : List ConnDoc) : Nat :=
  countSev (runDocs registered docs).findings Severity.warning +
    (cycleReports (runDocs registered docs).edges).length

/-- The summary exit code, mirroring the script's three branches:
no errors and no warnings ⇒ 0; no errors (warnings allowed) ⇒ 0;
otherwise ⇒ 1. -/
def runExitCode (registered : List String) (docs : List ConnDoc) : Nat :=
  if runErrors registered docs = 0 ∧ runWarnings registered docs = 0 then 0
  else if runErrors registered docs = 0 then 0
  else 1

/-- The `health.failOn` switches from the `CERBER_CONTRACT` block of
`CERBER.md`. -/
structure FailOn where
  critical : Bool
  error : Bool
  warning : Bool
  deriving DecidableEq, Repr

/-- Defined from the spec's words for comparison with the script's exit logic:
`evaluate(findings, failOn)` is `ok` unless some severity enabled in `failOn`
has a nonzero count. -/
def specEvaluateOk (fo : FailOn) (critCount errCount warnCount : Nat) : Bool :=
  !((fo.critical && decide (0 < critCount)) ||
    (fo.error && decide (0 < errCount)) ||
    (fo.warning && decide (0 < warnCount)))

/-- The `failOn` configuration declared in `CERBER.md`:
`critical: true`, `error: true`, `warning: false`. -/
def failOnDefault : FailOn := ⟨true, true, false⟩

/-- A well-formed contract document `from -> to` with all optional keys
present. -/
def docConn (f t : String) : ConnDoc :=
  ⟨true, some f, some t, true, true, true⟩

/-- A contract document with no `from` field. -/
def docNoFrom : ConnDoc := ⟨true, none, some "app", true, true, true⟩

/-- A contract document missing the `version` and `breaking_changes` keys. -/
def docNoVersion : ConnDoc := ⟨true, some "app", some "web", true, false, false⟩

/-- Recognize dangling-module findings. -/
def isDanglingF : Finding → Bool
  | ⟨FindingKind.danglingModule _, _⟩ => true
  | _ => false

/-- Claim C1: the connection validation run over two mutual connection
documents does not report exactly one circular-dependency cycle. For the
hyphen-free module names `a`, `b` (with contracts `a->b` and `b->a`) the loop
reports the pair twice, once per key; for the kebab-case names `module-a`,
`module-b` — the very naming convention the repository's own scripts
prescribe — it reports nothing, because `cut -d'-' -f1` truncates the `from`
name at its first hyphen and the reverse-key lookup misses. -/
theorem claim_C1_code_eval :
    (cycleReports (runDocs ["a", "b"]
        [docConn "a" "b", docConn "b" "a"]).edges).length = 2 ∧
    (cycleReports (runDocs ["module-a", "module-b"]
        [docConn "module-a" "module-b", docConn "module-b" "module-a"]).edges).length = 0 := by
  decide

/-- Claim C3 (counterexample): a contract from the unregistered module
`ghost` to the registered module `app` yields one dangling-module error, yet
its directed edge is still stored in the `connections` array used by the
circular-dependency check — the script stores the key before testing whether
the module directories exist. -/
theorem claim_C3_counterexample :
    (runDocs ["app"] [docConn "ghost" "app"]).edges = [("ghost", "app")] ∧
    ((runDocs ["app"] [docConn "ghost" "app"]).findings.filter isDanglingF).length = 1 := by
  decide

/-- Claim C3 (amended): for every syntactically valid contract with both
endpoint fields present, the run produces exactly one dangling-module error
per endpoint that is not registered, but the directed edge is recorded
unconditionally. -/
theorem claim_C3_amended (registered : List String) (d : ConnDoc) (f t : String)
    (hv : d.validJson = true) (hf : d.fromField = some f) (ht : d.toField = some t) :
    ((docFindings registered d).filter isDanglingF).length
        = ((if f ∈ registered then 0 else 1) + (if t ∈ registered then 0 else 1)) ∧
    docEdge d = some (f, t) := by
  constructor
  · cases h1 : decide (f ∈ registered) <;> cases h2 : decide (t ∈ registered) <;>
      cases h3 : d.hasInterface <;> cases h4 : d.hasVersion <;>
      cases h5 : d.hasBreakingChanges <;>
      simp_all [docFindings, isDanglingF, List.filter_append]
  · simp [docEdge, hv, hf, ht]

/-- Claim C3 (witness): the amended statement at the concrete dangling
contract `ghost -> app` with only `app` registered. -/
theorem claim_C3_witness :
    ((docFindings ["app"] (docConn "ghost" "app")).filter isDanglingF).length
        = ((if "ghost" ∈ (["app"] : List String) then 0 else 1) +
           (if "app" ∈ (["app"] : List String) then 0 else 1)) ∧
    docEdge (docConn "ghost" "app") = some ("ghost", "app") :=
  claim_C3_amended ["app"] (docConn "ghost" "app") "ghost" "app" rfl rfl rfl

/-- Claim C8 (counterexample): the self-loop contract `a -> a` (module `a`
registered, all keys present) produces no warning of its own during contract
processing, and the pair `(a, a)` does appear in the circular-dependency
report — the key `a->a` is its own reverse, so the cycle loop reports it. -/
theorem claim_C8_counterexample :
    cycleReports (runDocs ["a"] [docConn "a" "a"]).edges = [("a", "a")] ∧
    countSev (runDocs ["a"] [docConn "a" "a"]).findings Severity.warning = 0 := by
  decide

/-- Claim C8 (amended): a self-loop whose module name contains no hyphen is
reported by the circular-dependency check itself, as the pair `(a, a)`,
exactly once; contract processing emits no separate self-loop warning. -/
theorem claim_C8_amended (a : String) (h : truncFrom a = a) :
    cycleReports (runDocs [a] [docConn a a]).edges = [(a, a)] ∧
    countSev (runDocs [a] [docConn a a]).findings Severity.warning = 0 := by
  constructor
  · simp [runDocs, stepDoc, docConn, docFindings, docEdge, insertEdge,
      cycleReports, h]
  · simp [runDocs, stepDoc, docConn, docFindings, docEdge, insertEdge, countSev]

/-- Claim C8 (witness): the amended statement at the concrete module name
`b`. -/
theorem claim_C8_witness :
    cycleReports (runDocs ["b"] [docConn "b" "b"]).edges = [("b", "b")] ∧
    countSev (runDocs ["b"] [docConn "b" "b"]).findings Severity.warning = 0 :=
  claim_C8_amended "b" (by decide)

/-- Claim C2: the summary fails with exit code 1 exactly when the `ERRORS`
counter is positive, and it exits 0 exactly when the spec's severity
aggregator with `failOn = (critical: true, error: true, warning: false)`
reports `ok` on the run's counts (no critical findings exist in this script,
so the critical count is 0). Any number of warnings alone never causes
failure. -/
theorem claim_C2 (registered : List String) (docs : List ConnDoc) :
    (runExitCode registered docs = 1 ↔ 0 < runErrors registered docs) ∧
    (runExitCode registered docs = 0 ↔
      specEvaluateOk failOnDefault 0 (runErrors registered docs)
        (runWarnings registered docs) = true) := by
  unfold runExitCode specEvaluateOk failOnDefault
  by_cases h : runErrors registered docs = 0 <;>
    by_cases h2 : runWarnings registered docs = 0 <;>
    simp [h, h2] <;> omega

/-- The concatenation of the per-contract findings of a document list, in
order. -/
def allFindings (registered : List String) : List ConnDoc → List Finding
  | [] => []
  | d :: rest => docFindings registered d ++ allFindings registered rest

/-- The per-document sum of findings of one severity. -/
def sumSev (registered : List String) (s : Severity) : List ConnDoc → Nat
  | [] => 0
  | d :: rest => countSev (docFindings registered d) s + sumSev registered s rest

theorem countSev_append (a b : List Finding) (s : Severity) :
    countSev (a ++ b) s = countSev a s + countSev b s := by
  simp [countSev, List.filter_append]

theorem countSev_allFindings (registered : List String) (s : Severity)
    (docs : List ConnDoc) :
    countSev (allFindings registered docs) s = sumSev registered s docs := by
  induction docs with
  | nil => rfl
  | cons d rest ih => simp [allFindings, sumSev, countSev_append, ih]

theorem runDocs_go (registered : List String) (docs : List ConnDoc) (s : RunState) :
    (docs.foldl (stepDoc registered) s).checked = s.checked + docs.length ∧
    (docs.foldl (stepDoc registered) s).findings
        = s.findings ++ allFindings registered docs := by
  induction docs generalizing s with
  | nil => simp [allFindings]
  | cons d rest ih =>
      have h := ih (stepDoc registered s d)
      refine ⟨?_, ?_⟩
      · rw [List.foldl_cons, h.1]
        simp [stepDoc]
        omega
      · rw [List.foldl_cons, h.2]
        simp [stepDoc, allFindings]

/-- Claim C5: the per-contract loop is exhaustive: every document is counted
in `CHECKED`, the run's findings are exactly the concatenation of every
document's findings in order, and the error and warning counters are the sums
of every document's contributions — an erroring document never stops the
run. -/
theorem claim_C5 (registered : List String) (docs : List ConnDoc) :
    (runDocs registered docs).checked = docs.length ∧
    (runDocs registered docs).findings = allFindings registered docs ∧
    countSev (runDocs registered docs).findings Severity.error
        = sumSev registered Severity.error docs ∧
    countSev (runDocs registered docs).findings Severity.warning
        = sumSev registered Severity.warning docs := by
  have h := runDocs_go registered docs ⟨[], 0, []⟩
  unfold runDocs
  refine ⟨by rw [h.1]; simp, by rw [h.2]; rfl, ?_, ?_⟩ <;>
    rw [h.2] <;>
    simp [countSev_allFindings]

/-- Result of one invocation of `cerber-add-module.sh`. -/
inductive AddModuleResult where
  | created
  | alreadyExists
  | nameRequired
  deriving DecidableEq, Repr

/-- `cerber-add-module.sh`: no argument ⇒ usage error (exit 1); the module
directory already exists ⇒ "Module already exists" error (exit 1) and nothing
is touched; otherwise the module directory is created and added. The registry
is the list of directory names under `.cerber/modules`. -/
def addModule (registry : List String) (moduleName : String) :
    AddModuleResult × List String :=
  if moduleName = "" then (AddModuleResult.nameRequired, registry)
  else if moduleName ∈ registry then (AddModuleResult.alreadyExists, registry)
  else (AddModuleResult.created, registry ++ [moduleName])

/-- Claim C6 (counterexample): re-registering the existing module name `a`
does not succeed and does not replace anything: the script raises the
already-exists error and leaves the registry unchanged. -/
theorem claim_C6_counterexample :
    addModule ["a"] "a" = (AddModuleResult.alreadyExists, ["a"]) ∧
    (addModule ["a"] "a").1 ≠ AddModuleResult.created := by
  decide

/-- Claim C6 (amended): registering a nonempty module name that already
exists always fails with the already-exists error and leaves the registry
exactly as it was; the prior record is never replaced. -/
theorem claim_C6_amended (registry : List String) (moduleName : String)
    (hne : ¬ moduleName = "") (hmem : moduleName ∈ registry) :
    addModule registry moduleName = (AddModuleResult.alreadyExists, registry) := by
  simp [addModule, hne, hmem]

/-- Claim C6 (witness): the amended statement at the concrete registry
`[pricing]` and module name `pricing`. -/
theorem claim_C6_witness :
    addModule ["pricing"] "pricing" = (AddModuleResult.alreadyExists, ["pricing"]) :=
  claim_C6_amended ["pricing"] "pricing" (by decide) (by decide)

namespace ModuleSystem

/-- Module status from `team/lib/module-system.ts`. -/
inductive ModuleStatus where
  | active
  | deprecated
  | planned
  deriving DecidableEq, Repr

/-- `Module` from `team/lib/module-system.ts`. -/
structure Module where
  name : String
  owner : String
  status : ModuleStatus
  path : String
  deriving DecidableEq, Repr

/-- `FunctionSignature` from `team/lib/module-system.ts`; the `params` record
is a list of name/type pairs. -/
structure FunctionSignature where
  name : String
  params : List (String × String)
  returns : String
  description : String
  deriving DecidableEq, Repr

/-- `ModuleContract` from `team/lib/module-system.ts`. -/
structure ModuleContract where
  version : String
  publicInterface : List (String × FunctionSignature)
  dependencies : List String
  deriving DecidableEq, Repr

/-- `Connection.type` from `team/lib/module-system.ts`. -/
inductive ConnectionType where
  | functionCall
  | event
  | dataFlow
  deriving DecidableEq, Repr

/-- `Connection` from `team/lib/module-system.ts`; the opaque `interface`
payload is kept as its raw text. -/
structure Connection where
  id : String
  fromModule : String
  toModule : String
  type : ConnectionType
  interface : String
  version : Option String
  breaking_changes : Option (List String)
  notes : Option String
  deriving DecidableEq, Repr

/-- `ValidationResult` from `team/lib/module-system.ts`. -/
structure ValidationResult where
  valid : Bool
  errors : List String
  warnings : List String
  deriving DecidableEq, Repr

/-- `loadModule`: body is a single `throw new Error(...)`. -/
def loadModule (_moduleName : String) : Except String Module :=
  Except.error "Not implemented - use bash scripts for now"

/-- `loadContract`: body is a single `throw new Error(...)`. -/
def loadContract (_moduleName : String) : Except String ModuleContract :=
  Except.error "Not implemented - use bash scripts for now"

/-- `validateModule`: body is a single `throw new Error(...)`. -/
def validateModule (_moduleName : String) : Except String ValidationResult :=
  Except.error "Not implemented - use cerber-module-check.sh"

/-- `validateConnections`: body is a single `throw new Error(...)`. -/
def validateConnections : Except String (List ValidationResult) :=
  Except.error "Not implemented - use cerber-connections-check.sh"

/-- `createFocusContext`: body is a single `throw new Error(...)`. -/
def createFocusContext (_moduleName : String) : Except String String :=
  Except.error "Not implemented - use cerber-focus.sh"

/-- `listModules`: body is a single `throw new Error(...)`. -/
def listModules : Except String (List Module) :=
  Except.error "Not implemented - use bash to list .cerber/modules"

/-- `getModuleDependencies`: body is a single `throw new Error(...)`. -/
def getModuleDependencies (_moduleName : String) : Except String (List String) :=
  Except.error "Not implemented - parse dependencies.json directly"

/-- `detectCircularDependencies`: body is a single `throw new Error(...)`. -/
def detectCircularDependencies : Except String (List (List String)) :=
  Except.error "Not implemented - use cerber-connections-check.sh"

/-- `getModuleConnections`: body is a single `throw new Error(...)`. -/
def getModuleConnections (_moduleName : String) : Except String (List Connection) :=
  Except.error "Not implemented - grep .cerber/connections/contracts"

end ModuleSystem

/-- Claim C9: every exported function of the module-system API throws its
`Not implemented` error on every input and never produces a value. -/
theorem claim_C9 :
    (∀ n : String, ModuleSystem.loadModule n = Except.error "Not implemented - use bash scripts for now") ∧
    (∀ n : String, ModuleSystem.loadContract n = Except.error "Not implemented - use bash scripts for now") ∧
    (∀ n : String, ModuleSystem.validateModule n = Except.error "Not implemented - use cerber-module-check.sh") ∧
    ModuleSystem.validateConnections = Except.error "Not implemented - use cerber-connections-check.sh" ∧
    (∀ n : String, ModuleSystem.createFocusContext n = Except.error "Not implemented - use cerber-focus.sh") ∧
    ModuleSystem.listModules = Except.error "Not implemented - use bash to list .cerber/modules" ∧
    (∀ n : String, ModuleSystem.getModuleDependencies n = Except.error "Not implemented - parse dependencies.json directly") ∧
    ModuleSystem.detectCircularDependencies = Except.error "Not implemented - use cerber-connections-check.sh" ∧
    (∀ n : String, ModuleSystem.getModuleConnections n = Except.error "Not implemented - grep .cerber/connections/contracts") :=
  ⟨fun _ => rfl, fun _ => rfl, fun _ => rfl, rfl, fun _ => rfl, rfl,
   fun _ => rfl, rfl, fun _ => rfl⟩

/-- `FlagConfig` from `solo/lib/feature-flags.ts`; `expiresAt` is kept as the
parsed timestamp, `environments` as an optional list of environment names. -/
structure FlagConfig where
  enabled : Bool
  environments : Option (List String)
  expiresAt : Option Int
  deriving DecidableEq, Repr

/-- Lookup of `featureFlags[flag]` in the current configuration. -/
def findFlag : List (String × FlagConfig) → String → Option FlagConfig
  | [], _ => none
  | (n, c) :: rest, flag => if n = flag then some c else findFlag rest flag

/-- `process.env.NODE_ENV || "development"`. -/
def currentEnv (nodeEnv : Option String) : String :=
  nodeEnv.getD "development"

/-- The environment gate of `isFeatureEnabled`: when `environments` is
present and non-empty, the current environment must be listed. -/
def envAllows (c : FlagConfig) (nodeEnv : Option String) : Bool :=
  match c.environments with
  | none => true
  | some envs => !(decide (0 < envs.length) && !(decide (currentEnv nodeEnv ∈ envs)))

/-- The expiry gate of `isFeatureEnabled`: when `expiresAt` is present and
`now > expiryDate`, the flag is expired. -/
def notExpired (c : FlagConfig) (now : Int) : Bool :=
  match c.expiresAt with
  | none => true
  | some e => !(decide (e < now))

/-- `isFeatureEnabled` from `solo/lib/feature-flags.ts`, with its early
returns: unknown flag ⇒ false; disabled ⇒ false; environment not allowed ⇒
false; expired ⇒ false; otherwise true. -/
def isFeatureEnabled (flags : List (String × FlagConfig)) (nodeEnv : Option String)
    (now : Int) (flag : String) : Bool :=
  match findFlag flags flag with
  | none => false
  | some c =>
      if !c.enabled then false
      else if !(envAllows c nodeEnv) then false
      else if !(notExpired c now) then false
      else true

theorem envAllows_iff (c : FlagConfig) (nodeEnv : Option String) :
    envAllows c nodeEnv = true ↔
      ∀ envs, c.environments = some envs → 0 < envs.length →
        currentEnv nodeEnv ∈ envs := by
  cases h : c.environments with
  | none => simp [envAllows, h]
  | some envs =>
      by_cases hl : 0 < envs.length <;> simp [envAllows, h, hl]

theorem notExpired_iff (c : FlagConfig) (now : Int) :
    notExpired c now = true ↔ ∀ e, c.expiresAt = some e → now ≤ e := by
  cases h : c.expiresAt with
  | none => simp [notExpired, h]
  | some e => simp [notExpired, h, Int.not_lt]

/-- Claim C10: `isFeatureEnabled` returns true exactly when the flag is
present, enabled, allowed in the current environment (`NODE_ENV`, defaulting
to `development`, must be listed whenever `environments` is present and
non-empty), and not strictly past its `expiresAt` date; an absent flag yields
false rather than an exception. -/
theorem claim_C10 (flags : List (String × FlagConfig)) (nodeEnv : Option String)
    (now : Int) (flag : String) :
    (isFeatureEnabled flags nodeEnv now flag = true ↔
      ∃ c, findFlag flags flag = some c ∧ c.enabled = true ∧
        (∀ envs, c.environments = some envs → 0 < envs.length →
          currentEnv nodeEnv ∈ envs) ∧
        (∀ e, c.expiresAt = some e → now ≤ e)) ∧
    (findFlag flags flag = none → isFeatureEnabled flags nodeEnv now flag = false) := by
  constructor
  · cases h : findFlag flags flag with
    | none => simp [isFeatureEnabled, h]
    | some c =>
        have hs : isFeatureEnabled flags nodeEnv now flag
            = (c.enabled && (envAllows c nodeEnv && notExpired c now)) := by
          simp only [isFeatureEnabled, h]
          cases hE : c.enabled <;> cases hA : envAllows c nodeEnv <;>
            cases hN : notExpired c now <;> simp [hE, hA, hN]
        rw [hs]
        simp [h, Bool.and_eq_true, envAllows_iff, notExpired_iff]
  · intro h
    simp [isFeatureEnabled, h]

/-- Claim C10 (witness): an absent flag in the empty configuration yields
false. -/
theorem claim_C10_witness : isFeatureEnabled [] none 0 "missing-flag" = false :=
  (claim_C10 [] none 0 "missing-flag").2 rfl

/-- Claim C4: in a syntactically valid contract, absence of `from` or `to`
yields exactly the one error-severity malformed-contract finding, absence of
`version` or `breaking_changes` yields a warning-severity finding, and
neither of those two ever appears with error severity. -/
theorem claim_C4 (registered : List String) (d : ConnDoc) :
    (d.validJson = true → (d.fromField = none ∨ d.toField = none) →
        docFindings registered d = [⟨FindingKind.missingFromTo, Severity.error⟩]) ∧
    (d.validJson = true → d.fromField.isSome = true → d.toField.isSome = true →
        d.hasVersion = false →
        Finding.mk FindingKind.missingVersion Severity.warning ∈ docFindings registered d) ∧
    (d.validJson = true → d.fromField.isSome = true → d.toField.isSome = true →
        d.hasBreakingChanges = false →
        Finding.mk FindingKind.missingBreakingChanges Severity.warning ∈ docFindings registered d) ∧
    Finding.mk FindingKind.missingVersion Severity.error ∉ docFindings registered d ∧
    Finding.mk FindingKind.missingBreakingChanges Severity.error ∉ docFindings registered d := by
  obtain ⟨vj, ff, tf, hi, hv, hb⟩ := d
  cases vj with
  | false =>
      refine ⟨?_, ?_, ?_, ?_, ?_⟩ <;> simp [docFindings]
  | true =>
      cases ff with
      | none =>
          refine ⟨?_, ?_, ?_, ?_, ?_⟩ <;> simp [docFindings]
      | some f =>
          cases tf with
          | none =>
              refine ⟨?_, ?_, ?_, ?_, ?_⟩ <;> simp [docFindings]
          | some t =>
              refine ⟨?_, ?_, ?_, ?_, ?_⟩
              · rintro _ (h | h) <;> simp at h
              · intro _ _ _ hveq
                subst hveq
                simp [docFindings]
              · intro _ _ _ hbeq
                subst hbeq
                simp [docFindings]
              · simp only [docFindings]
                split_ifs <;> simp
              · simp only [docFindings]
                split_ifs <;> simp

/-- Claim C4 (witness): the concrete contracts — one with no `from` field,
one missing the `version` and `breaking_changes` keys. -/
theorem claim_C4_witness :
    docFindings ["app"] docNoFrom = [⟨FindingKind.missingFromTo, Severity.error⟩] ∧
    Finding.mk FindingKind.missingVersion Severity.warning ∈ docFindings ["app"] docNoVersion ∧
    Finding.mk FindingKind.missingBreakingChanges Severity.warning ∈ docFindings ["app"] docNoVersion :=
  ⟨(claim_C4 ["app"] docNoFrom).1 rfl (Or.inl rfl),
   (claim_C4 ["app"] docNoVersion).2.1 rfl rfl rfl rfl,
   (claim_C4 ["app"] docNoVersion).2.2.1 rfl rfl rfl rfl⟩

/-- Modelled from the spec: fuel-bounded glob matching for exception paths
(the Pattern Matcher that applies exception globs is not present in the
repository sources; only the `BACKEND_SCHEMA` declaration is). `*` matches
any span of characters; other characters match literally. The fuel
`pattern.length + path.length + 1` strictly exceeds the combined length,
which every recursive call decreases, so the bound is never hit. -/
def globMatchFuel : Nat → List Char → List Char → Bool
  | 0, _, _ => false
  | _ + 1, [], s => s.isEmpty
  | n + 1, p :: ps, s =>
      if p == '*' then
        match s with
        | [] => globMatchFuel n ps []
        | c :: cs => globMatchFuel n ps (c :: cs) || globMatchFuel n (p :: ps) cs
      else
        match s with
        | [] => false
        | c :: cs => p == c && globMatchFuel n ps cs

/-- Modelled from the spec: whether a glob pattern matches a relative path. -/
def globMatch (pat s : List Char) : Bool :=
  globMatchFuel (pat.length + s.length + 1) pat s

/-- Whitespace for the `\s*` parts of the forbidden pattern. -/
def isWsChar (c : Char) : Bool :=
  c == ' ' || c == '\t' || c == '\n' || c == '\r'

/-- Drop leading whitespace. -/
def skipWs : List Char → List Char
  | [] => []
  | c :: cs => if isWsChar c then skipWs cs else c :: cs

/-- A single or double quote, for the character classes of the forbidden
pattern. -/
def isQuoteChar (c : Char) : Bool :=
  c == Char.ofNat 39 || c == '"'

/-- Scan for the next quote character. -/
def findCloseQuote : List Char → Bool
  | [] => false
  | c :: cs => if isQuoteChar c then true else findCloseQuote cs

/-- Modelled from the spec: match the regex fragment
`['"][^'"]+['"]` — an opening quote, at least one non-quote character, then a
closing quote. -/
def matchQuoted : List Char → Bool
  | [] => false
  | c :: cs =>
      if isQuoteChar c then
        match cs with
        | [] => false
        | d :: ds => !isQuoteChar d && findCloseQuote ds
      else false

/-- Modelled from the spec: whether the forbidden pattern
`password\s*=\s*['"][^'"]+['"]` matches starting at this position. -/
def matchPasswordAt : List Char → Bool
  | 'p' :: 'a' :: 's' :: 's' :: 'w' :: 'o' :: 'r' :: 'd' :: rest =>
      (match skipWs rest with
       | '=' :: rest2 => matchQuoted (skipWs rest2)
       | _ => false)
  | _ => false

/-- All suffixes of a list, longest first. -/
def suffixes : List Char → List (List Char)
  | [] => [[]]
  | c :: cs => (c :: cs) :: suffixes cs

/-- Modelled from the spec: the number of positions at which the forbidden
password pattern matches — one Finding per match. -/
def countPasswordMatches (content : String) : Nat :=
  ((suffixes content.data).filter matchPasswordAt).length

/-- One Finding of the pattern scanner. -/
structure ScanFinding where
  ruleName : String
  file : String
  severity : Severity
  deriving DecidableEq, Repr

/-- A forbidden-pattern rule: a name, a content matcher counting matches, a
severity, and exception globs. -/
structure ScanRule where
  name : String
  matchCount : String → Nat
  severity : Severity
  exceptions : List String

/-- Modelled from the spec: the Findings one rule contributes for one file —
none when the file's relative path matches an exception glob, otherwise one
Finding per pattern match in the content. -/
def ruleFindingsFor (r : ScanRule) (path content : String) : List ScanFinding :=
  if r.exceptions.any (fun g => globMatch g.data path.data) then []
  else List.replicate (r.matchCount content) (ScanFinding.mk r.name path r.severity)

/-- The scenario rule: the forbidden pattern `Hardcoded passwords` at error
severity with the exception glob `.env.example`. -/
def passwordRule : ScanRule :=
  { name := "Hardcoded passwords"
    matchCount := countPasswordMatches
    severity := Severity.error
    exceptions := [".env.example"] }

/-- Claim C7: a file whose path matches one of a rule's exception globs never
contributes a Finding for that rule, whatever its content; and in the
scenario, `config.ts` containing `password = "x"` yields exactly one error
Finding while `.env.example` with the same content yields none. -/
theorem claim_C7 :
    (∀ (r : ScanRule) (path content : String),
        r.exceptions.any (fun g => globMatch g.data path.data) = true →
        ruleFindingsFor r path content = []) ∧
    ruleFindingsFor passwordRule "config.ts" "password = \"x\""
        = [ScanFinding.mk "Hardcoded passwords" "config.ts" Severity.error] ∧
    ruleFindingsFor passwordRule ".env.example" "password = \"x\"" = [] := by
  refine ⟨?_, ?_, ?_⟩
  · intro r path content h
    simp [ruleFindingsFor, h]
  · decide
  · decide

/-- Claim C7 (witness): the exception branch at the concrete rule, path and
a different content. -/
theorem claim_C7_witness :
    ruleFindingsFor passwordRule ".env.example" "password = \"secret\"" = [] :=
  claim_C7.1 passwordRule ".env.example" "password = \"secret\"" (by decide)
